import Mathlib

/-!
Shallow embedding of the bsky-feed-bot feed synchronization and publishing
pipeline (src/main.rs, src/dynamodb.rs, src/feed.rs, src/bsky.rs).

External effects (HTTP requests, DynamoDB calls) are modelled by explicit
oracle parameters, and the side effects the claims talk about (publish calls,
cursor-store updates, network calls of the publish client) are recorded in
explicit event traces.
-/

namespace BskyFeedBot

/-- One item of a fetched feed, as used by `process_feed` in main.rs:
a stable `id`, a target `url`, an optional `title` and an optional
`published` timestamp (modelled as a natural number). -/
structure FeedEntry where
  id : String
  url : String
  title : Option String
  published : Option Nat
  deriving DecidableEq, Repr

/-- One row of the DynamoDB table (dynamodb.rs `FeedRecord`): the feed url
and the optional cursor `last_posted_entry_id`. -/
structure FeedRecord where
  url : String
  last_posted_entry_id : Option String
  deriving DecidableEq, Repr

/-- The collection loop of `process_feed` (main.rs lines 61-72): walk the
fetched entries (newest-first) with their index; with a stored cursor, stop
(without collecting) at the first entry whose id equals the cursor; without
a cursor, collect the entry at index 0 and stop right after it. -/
def collect_target_entries (last_posted_entry_id : Option String) :
    Nat → List FeedEntry → List FeedEntry
  | _, [] => []
  | index, e :: rest =>
    match last_posted_entry_id with
    | some cursor =>
      if e.id = cursor then []
      else e :: collect_target_entries (some cursor) (index + 1) rest
    | none =>
      if index = 0 then [e]
      else e :: collect_target_entries none (index + 1) rest

/-- The delta computation of `process_feed` (main.rs lines 60-73): collect,
then reverse into ascending chronological (oldest-first) order. -/
def compute_target_entries (last_posted_entry_id : Option String)
    (entries : List FeedEntry) : List FeedEntry :=
  (collect_target_entries last_posted_entry_id 0 entries).reverse

/-- With a stored cursor the collection loop is exactly `takeWhile`:
entries are collected while their id differs from the cursor. -/
theorem collect_target_entries_some (cursor : String) (index : Nat)
    (entries : List FeedEntry) :
    collect_target_entries (some cursor) index entries
      = entries.takeWhile (fun e => e.id ≠ cursor) := by
  induction entries generalizing index with
  | nil => rfl
  | cons e rest ih =>
    simp only [collect_target_entries, List.takeWhile]
    by_cases h : e.id = cursor
    · simp [h]
    · simp [h, ih]

/-- `takeWhile` of a negated equality is `take` of the index of the first
match (`findIdx` returns the length when there is no match, so in that case
the whole list is taken). -/
theorem takeWhile_ne_eq_take_findIdx (cursor : String) (entries : List FeedEntry) :
    entries.takeWhile (fun e => e.id ≠ cursor)
      = entries.take (entries.findIdx (fun e => e.id = cursor)) := by
  induction entries with
  | nil => rfl
  | cons e rest ih =>
    simp only [List.takeWhile, List.findIdx_cons]
    by_cases h : e.id = cursor
    · simp [h]
    · simp only [ne_eq, decide_not] at ih
      simp [h, ih, List.take_succ_cons]

/-- Observable side effects of one run: a `publish` event for each
`create_record` call (main.rs line 94) and a `cursorWrite` event for each
`update_application_info_in_dynamodb` call (main.rs lines 98-103,
dynamodb.rs lines 59-76). -/
inductive Event where
  | publish (id : String)
  | cursorWrite (url : String) (id : String)
  deriving DecidableEq, Repr

/-- The per-entry loop of `process_feed` (main.rs lines 75-96).  The outcome
of the `create_record` call for an entry is given by the oracle
`publishOk`; on success the local `last_posted_entry_id` advances to the
entry's id and the loop continues, on failure the `?` operator aborts the
whole function.  Returns the trace of publish calls, the final local
`last_posted_entry_id`, and whether the loop ran to completion. -/
def publish_loop (publishOk : String → Bool) :
    List FeedEntry → Option String → List Event × Option String × Bool
  | [], last_posted_entry_id => ([], last_posted_entry_id, true)
  | e :: rest, last_posted_entry_id =>
    if publishOk e.id then
      let (events, last', ok) := publish_loop publishOk rest (some e.id)
      (Event.publish e.id :: events, last', ok)
    else
      ([Event.publish e.id], last_posted_entry_id, false)

/-- `process_feed` (main.rs lines 52-107): compute the delta, publish it
oldest-first, and — only if every entry of the delta published
successfully — issue a single cursor-store update with the final local
`last_posted_entry_id` (main.rs lines 97-104), which was initialised from
the stored cursor (main.rs line 74).  Returns the event trace and whether
the feed was processed without error. -/
def process_feed (publishOk : String → Bool) (feed_record : FeedRecord)
    (entries : List FeedEntry) : List Event × Bool :=
  let target_entries := compute_target_entries feed_record.last_posted_entry_id entries
  let (events, last, ok) :=
    publish_loop publishOk target_entries feed_record.last_posted_entry_id
  if ok then
    match last with
    | some id => (events ++ [Event.cursorWrite feed_record.url id], true)
    | none => (events, true)
  else (events, false)

/-- `execute` (main.rs lines 34-50): process every registered feed in order,
pushing each feed's result, and only afterwards collect the results — so the
run's trace contains every feed's events, and the run fails iff some feed
failed.  Each feed's fetched entries are supplied alongside its record. -/
def execute (publishOk : String → Bool)
    (feeds : List (FeedRecord × List FeedEntry)) : List Event × Bool :=
  let feed_process_results := feeds.map (fun p => process_feed publishOk p.1 p.2)
  ((feed_process_results.map Prod.fst).flatten, feed_process_results.all Prod.snd)

/-- Recogniser for cursor-store update events, for counting them. -/
def isCursorWrite : Event → Bool
  | Event.cursorWrite _ _ => true
  | _ => false

/-- Recogniser for cursor-store update events of one particular feed url. -/
def isCursorWriteFor (url : String) : Event → Bool
  | Event.cursorWrite u _ => u = url
  | _ => false

/-- Recogniser for the publish event of one particular entry id. -/
def isPublishOf (id : String) : Event → Bool
  | Event.publish i => i = id
  | _ => false

/-! ## Session-managed publish client (bsky.rs) -/

/-- Network calls made by `execute_request_with_refresh_session`:
an execution of the (cloned or original) request, or a call to
`refresh_session`. -/
inductive NetCall where
  | exec
  | refresh
  deriving DecidableEq, Repr

/-- reqwest's `error_for_status`: an HTTP status in 400..=599 is turned into
an error, every other status passes through. -/
def isErrorStatus (s : Nat) : Bool := 400 ≤ s && s ≤ 599

/-- `execute_request_with_refresh_session` (bsky.rs lines 145-164), with the
network modelled by the status of the first execution of the request, the
outcome of a `refresh_session` call, and the status of the re-issued request
when one is made.  Returns the trace of network calls and the result: the
first response's status is inspected; on 401 the session is refreshed (a
refresh failure propagates via `?`) and the identical request is executed
once more, with `error_for_status` applied to that response; on any other
first status only `error_for_status` is applied. -/
def execute_request_with_refresh_session (first : Nat) (refreshOk : Bool)
    (second : Nat) : List NetCall × Except Unit Nat :=
  if first = 401 then
    if refreshOk then
      ([NetCall.exec, NetCall.refresh, NetCall.exec],
        if isErrorStatus second then Except.error () else Except.ok second)
    else
      ([NetCall.exec, NetCall.refresh], Except.error ())
  else
    ([NetCall.exec],
      if isErrorStatus first then Except.error () else Except.ok first)

/-- The blob reference returned by the upload endpoint (bsky.rs `Blob`):
a link, a mime type and a byte size. -/
structure Blob where
  link : String
  mime_type : String
  size : Nat
  deriving DecidableEq, Repr

/-- Response of `upload_blob` (bsky.rs `UploadBlobResponse`). -/
structure UploadBlobResponse where
  blob : Blob
  deriving DecidableEq, Repr

/-- OGP metadata of an entry's page (feed.rs `OGPInfo`): three independent
optional fields. -/
structure OGPInfo where
  title : Option String
  image_url : Option String
  description : Option String
  deriving DecidableEq, Repr

/-- The `external` member of a post's embed (bsky.rs `EmbedExternal`). -/
structure EmbedExternal where
  uri : String
  title : String
  description : String
  thumb : Option Blob
  deriving DecidableEq, Repr

/-- A post's embed (bsky.rs `Embed`). -/
structure Embed where
  type : String
  ext : EmbedExternal
  deriving DecidableEq, Repr

/-- The post record (bsky.rs `Record`). -/
structure Record where
  type : String
  text : String
  embed : Option Embed
  created_at : String
  deriving DecidableEq, Repr

/-- The createRecord request (bsky.rs `CreateRecordRequest`). -/
structure CreateRecordRequest where
  repo : String
  collection : String
  record : Record
  deriving DecidableEq, Repr

/-- `format_create_record_request_from_feed_entry` (bsky.rs lines 215-275),
in the release configuration (`cfg!(debug_assertions)` is false, so no
"[test]" prefix is added to the text).  The session's `did` and the
`Utc::now()` timestamp are passed in as parameters; `feed_title` is the
fetched feed's optional title (`feed.title` of the `&Feed` argument). -/
def format_create_record_request_from_feed_entry (did : String) (now : String)
    (feed_title : Option String) (feed_entry : FeedEntry)
    (ogp_info : Option OGPInfo) (upload_blob_response : Option UploadBlobResponse) :
    CreateRecordRequest :=
  let title :=
    match feed_entry.title with
    | some entry_title =>
      match feed_title with
      | some ft => entry_title ++ " | " ++ ft
      | none => entry_title
    | none => ""
  let thumb :=
    match upload_blob_response with
    | some r => if r.blob.size > 1000000 then none else some r.blob
    | none => none
  let embed :=
    match ogp_info with
    | some ogp =>
      let embed_title :=
        match ogp.title with
        | some ogp_title => ogp_title
        | none =>
          match feed_entry.title with
          | some feed_entry_title => feed_entry_title
          | none => ""
      some { type := "app.bsky.embed.external",
             ext := { uri := feed_entry.url,
                      title := embed_title,
                      description := ogp.description.getD "",
                      thumb := thumb } }
    | none => none
  { repo := did,
    collection := "app.bsky.feed.post",
    record := { type := "app.bsky.feed.post",
                text := title,
                embed := embed,
                created_at := now } }

/-- The thumbnail actually attached to a composed post record: the `thumb`
field of its embed's `external` member, when an embed is present at all. -/
def recordThumb (req : CreateRecordRequest) : Option Blob :=
  match req.record.embed with
  | some e => e.ext.thumb
  | none => none

/-! ## Per-entry enrichment (feed.rs) -/

/-- The three optional `og:` meta attributes read out of a fetched page by
`extract_ogp_info_from_meta_tag` (feed.rs lines 112-120); the HTML parsing
itself is third-party and is modelled as already done. -/
structure ParsedPage where
  og_title : Option String
  og_image : Option String
  og_description : Option String
  deriving DecidableEq, Repr

/-- A downloaded image (feed.rs `OGImage`): raw bytes and a content type. -/
structure OGImage where
  image : List Nat
  content_type : String
  deriving DecidableEq, Repr

/-- `get_ogp_from_url` (feed.rs lines 98-110): the page fetch either fails
(network error, propagated by `?`) or yields a parsed page whose three
`og:` attributes become the `OGPInfo` fields. -/
def get_ogp_from_url (response : Except Unit ParsedPage) : Except Unit OGPInfo :=
  match response with
  | Except.error e => Except.error e
  | Except.ok page =>
    Except.ok { title := page.og_title,
                image_url := page.og_image,
                description := page.og_description }

/-- `extract_feed_entry_info` (feed.rs lines 143-155): the metadata fetch's
result is converted with `.ok()` (failure becomes `none`); the image is
downloaded only when metadata was obtained and carries an image url, and
that download's result is converted with `.ok()` as well.  The function
itself always returns `Ok`. -/
def extract_feed_entry_info (pageResponse : Except Unit ParsedPage)
    (imageFetch : String → Except Unit OGImage) :
    Except Unit (Option OGPInfo × Option OGImage) :=
  let ogp_info := (get_ogp_from_url pageResponse).toOption
  let og_image :=
    match ogp_info with
    | some ogp =>
      match ogp.image_url with
      | some image_url => (imageFetch image_url).toOption
      | none => none
    | none => none
  Except.ok (ogp_info, og_image)

/-- An image fetch oracle that always fails, for concrete instances. -/
def failingImageFetch : String → Except Unit OGImage := fun _ => Except.error ()

/-! ## Concrete fixtures -/

/-- Oldest entry, already published (its id is the stored cursor). -/
def entryE0 : FeedEntry := ⟨"e0", "https://blog.example/e0", some "E0", some 0⟩

/-- Oldest unpublished entry E1. -/
def entryE1 : FeedEntry := ⟨"e1", "https://blog.example/e1", some "E1", some 1⟩

/-- Middle unpublished entry E2. -/
def entryE2 : FeedEntry := ⟨"e2", "https://blog.example/e2", some "E2", some 2⟩

/-- Newest unpublished entry E3. -/
def entryE3 : FeedEntry := ⟨"e3", "https://blog.example/e3", some "E3", some 3⟩

/-- The single entry of a second feed. -/
def entryF1 : FeedEntry := ⟨"f1", "https://other.example/f1", some "F1", some 7⟩

/-- A feed record whose stored cursor points at `entryE0`. -/
def feedRecA : FeedRecord := ⟨"https://blog.example/rss", some "e0"⟩

/-- A second feed record, with no stored cursor yet. -/
def feedRecB : FeedRecord := ⟨"https://other.example/rss", none⟩

/-- A feed record whose stored cursor points at the newest fetched entry. -/
def feedRecC : FeedRecord := ⟨"https://blog.example/rss", some "e1"⟩

/-- Fetched entries of the first feed, newest-first; the delta above the
`"e0"` cursor is E1, E2, E3 in ascending chronological order. -/
def entriesA : List FeedEntry := [entryE3, entryE2, entryE1, entryE0]

/-- Fetched entries for the already-up-to-date scenario: the newest entry's
id equals the stored cursor `"e1"`. -/
def entriesC : List FeedEntry := [entryE1, entryE0]

/-- A publish oracle under which every `create_record` call succeeds. -/
def allPublishOk : String → Bool := fun _ => true

/-- A publish oracle under which exactly the entry `"e2"` fails. -/
def pubFailE2 : String → Bool := fun i => !(i = "e2")

/-- An uploaded blob whose size is far below the 1,000,000-byte bound. -/
def smallBlobResponse : UploadBlobResponse := ⟨⟨"lnk1", "image/jpeg", 10⟩⟩

/-- An uploaded blob whose size exceeds the 1,000,000-byte bound. -/
def bigBlobResponse : UploadBlobResponse := ⟨⟨"lnk2", "image/jpeg", 1000001⟩⟩

/-! ## Supporting lemmas -/

/-- When every entry of the list publishes successfully, `publish_loop`
emits one publish event per entry in list order, completes, and its final
local cursor is the last entry's id (or the initial cursor when the list is
empty). -/
theorem publish_loop_all_ok (publishOk : String → Bool) :
    ∀ (ts : List FeedEntry) (last0 : Option String),
      (∀ e ∈ ts, publishOk e.id = true) →
      publish_loop publishOk ts last0
        = (ts.map (fun e => Event.publish e.id),
           ((ts.getLast?).map FeedEntry.id).or last0, true) := by
  intro ts
  induction ts with
  | nil => intro last0 _; rfl
  | cons e rest ih =>
    intro last0 h
    have he : publishOk e.id = true := h e (List.mem_cons_self e rest)
    have hrest : ∀ x ∈ rest, publishOk x.id = true :=
      fun x hx => h x (List.mem_cons_of_mem e hx)
    simp only [publish_loop, he, if_true, ih (some e.id) hrest]
    cases rest with
    | nil => simp
    | cons b l =>
      obtain ⟨x, hx⟩ := Option.isSome_iff_exists.mp
        (List.getLast?_isSome.mpr (List.cons_ne_nil b l))
      simp [List.getLast?_cons_cons, hx]

/-- Every event emitted by `publish_loop` is a publish event. -/
theorem publish_loop_events_publish (publishOk : String → Bool) :
    ∀ (ts : List FeedEntry) (last0 : Option String) (ev : Event),
      ev ∈ (publish_loop publishOk ts last0).1 → ∃ i, ev = Event.publish i := by
  intro ts
  induction ts with
  | nil => intro last0 ev hev; simp [publish_loop] at hev
  | cons e rest ih =>
    intro last0 ev hev
    simp only [publish_loop] at hev
    by_cases he : publishOk e.id = true
    · simp only [he, if_true] at hev
      rcases List.mem_cons.mp hev with h | h
      · exact ⟨e.id, h⟩
      · exact ih (some e.id) ev h
    · simp only [he] at hev
      simp at hev
      exact ⟨e.id, hev⟩

/-- When `publish_loop` runs to completion, its final local cursor is the
last entry's id, or the initial cursor when the list is empty. -/
theorem publish_loop_ok_last (publishOk : String → Bool) :
    ∀ (ts : List FeedEntry) (last0 : Option String) (evs : List Event)
      (l : Option String),
      publish_loop publishOk ts last0 = (evs, l, true) →
      l = ((ts.getLast?).map FeedEntry.id).or last0 := by
  intro ts
  induction ts with
  | nil =>
    intro last0 evs l h
    simp only [publish_loop, Prod.mk.injEq] at h
    simp [← h.2.1]
  | cons e rest ih =>
    intro last0 evs l h
    simp only [publish_loop] at h
    by_cases he : publishOk e.id = true
    · rcases hrec : publish_loop publishOk rest (some e.id) with ⟨evs', l', ok'⟩
      simp only [he, if_true, hrec, Prod.mk.injEq] at h
      obtain ⟨-, h2, h3⟩ := h
      subst h2
      subst h3
      have hl' := ih (some e.id) evs' l' hrec
      rw [hl']
      cases rest with
      | nil => simp
      | cons b bl =>
        obtain ⟨x, hx⟩ := Option.isSome_iff_exists.mp
          (List.getLast?_isSome.mpr (List.cons_ne_nil b bl))
        simp [List.getLast?_cons_cons, hx]
    · rw [if_neg he] at h
      exact absurd (congrArg (fun t => t.2.2) h) (by simp)

/-! ## Claim theorems -/

/-- C3: for every feed whose stored cursor is `None`, the computed delta is
exactly the single newest fetched entry — the head of the newest-first
fetched list — and is empty when the feed has no entries (`List.take 1`
yields `[head]` on a nonempty list and `[]` on the empty one). -/
theorem c3_no_cursor_delta_is_single_newest (entries : List FeedEntry) :
    compute_target_entries none entries = entries.take 1 := by
  cases entries with
  | nil => rfl
  | cons e rest =>
    simp [compute_target_entries, collect_target_entries]

/-- C4: for every feed with stored cursor `Some cursor` and fetched entries
in newest-first order, the delta is the prefix of entries strictly before
the first entry whose id equals the cursor (`take` of `findIdx`), reversed
into ascending chronological order; since `findIdx` returns the list's
length when no entry matches, the delta is the entire fetched list reversed
in that case. -/
theorem c4_cursor_delta_is_strict_head_segment_reversed (cursor : String)
    (entries : List FeedEntry) :
    compute_target_entries (some cursor) entries
      = (entries.take (entries.findIdx (fun e => e.id = cursor))).reverse := by
  rw [compute_target_entries, collect_target_entries_some,
    takeWhile_ne_eq_take_findIdx]

/-- C1 (corrected), counterexample to the claim as stated: with stored
cursor `"e0"` and newest-first entries E3, E2, E1, E0, the delta is E1, E2,
E3 ascending and every publish succeeds, yet the cursor store receives
exactly ONE update call (after all three publishes, with E3's id), not
three sequential update calls. -/
theorem c1_counterexample :
    compute_target_entries feedRecA.last_posted_entry_id entriesA
        = [entryE1, entryE2, entryE3]
    ∧ process_feed allPublishOk feedRecA entriesA
        = ([Event.publish "e1", Event.publish "e2", Event.publish "e3",
            Event.cursorWrite "https://blog.example/rss" "e3"], true)
    ∧ (process_feed allPublishOk feedRecA entriesA).1.countP isCursorWrite = 1
    ∧ ¬((process_feed allPublishOk feedRecA entriesA).1.countP isCursorWrite = 3) := by
  exact ⟨by decide, by decide, by decide, by decide⟩

/-- C1 (amended): when the delta is nonempty (with last element `lastE`)
and every delta entry's publish call succeeds, `process_feed` publishes the
delta entries in ascending order and then issues exactly one cursor-store
update, strictly after all publish successes, recording the id of the last
(newest) delta entry. -/
theorem c1_publishes_in_order_then_single_cursor_write
    (publishOk : String → Bool) (feed_record : FeedRecord)
    (entries : List FeedEntry) (lastE : FeedEntry)
    (hlast : (compute_target_entries feed_record.last_posted_entry_id
        entries).getLast? = some lastE)
    (hok : ∀ e ∈ compute_target_entries feed_record.last_posted_entry_id entries,
      publishOk e.id = true) :
    process_feed publishOk feed_record entries
      = ((compute_target_entries feed_record.last_posted_entry_id entries).map
            (fun e => Event.publish e.id)
          ++ [Event.cursorWrite feed_record.url lastE.id], true) := by
  simp only [process_feed, publish_loop_all_ok publishOk _ _ hok, hlast]
  simp

/-- Witness for C1 (amended), at the concrete three-entry scenario. -/
theorem c1_publishes_in_order_then_single_cursor_write_witness :
    process_feed allPublishOk feedRecA entriesA
      = ((compute_target_entries feedRecA.last_posted_entry_id entriesA).map
            (fun e => Event.publish e.id)
          ++ [Event.cursorWrite feedRecA.url entryE3.id], true) :=
  c1_publishes_in_order_then_single_cursor_write allPublishOk feedRecA entriesA
    entryE3 (by decide) (fun e _ => rfl)

/-- C2 (corrected), counterexample to the claim as stated: with delta E1,
E2, E3 where E1 publishes and E2's publish fails, the cursor store receives
NO update at all for that feed (the `?` on the failed `create_record` call
exits `process_feed` before the update on main.rs line 98 is reached), so
its final state is the pre-run cursor, not E1's id.  E3 is never attempted,
the run reports failure, and the other subscribed feed is still fully
processed. -/
theorem c2_counterexample :
    pubFailE2 "e1" = true ∧ pubFailE2 "e2" = false
    ∧ execute pubFailE2 [(feedRecA, entriesA), (feedRecB, [entryF1])]
        = ([Event.publish "e1", Event.publish "e2",
            Event.publish "f1", Event.cursorWrite "https://other.example/rss" "f1"],
           false)
    ∧ (execute pubFailE2 [(feedRecA, entriesA), (feedRecB, [entryF1])]).1.countP
        (isCursorWriteFor feedRecA.url) = 0
    ∧ (execute pubFailE2 [(feedRecA, entriesA), (feedRecB, [entryF1])]).1.countP
        (isPublishOf "e3") = 0 := by
  exact ⟨by decide, by decide, by decide, by decide, by decide⟩

/-- C2 (amended): if a feed's delta starts E1, E2, ... with E1's publish
succeeding and E2's failing, then that feed's processing emits exactly the
two publish events and stops — no cursor-store update is issued for the
feed (its stored cursor keeps its pre-run value), and no later delta entry
is attempted; at the run level every other subscribed feed, before and
after it, still contributes its full processing trace, and the aggregate
result is a failure surfaced only after all feeds were attempted. -/
theorem c2_publish_failure_is_isolated (publishOk : String → Bool)
    (feed_record : FeedRecord) (entries : List FeedEntry)
    (e1 e2 : FeedEntry) (rest : List FeedEntry)
    (pre post : List (FeedRecord × List FeedEntry))
    (hdelta : compute_target_entries feed_record.last_posted_entry_id entries
        = e1 :: e2 :: rest)
    (h1 : publishOk e1.id = true) (h2 : publishOk e2.id = false) :
    process_feed publishOk feed_record entries
        = ([Event.publish e1.id, Event.publish e2.id], false)
    ∧ execute publishOk (pre ++ (feed_record, entries) :: post)
        = ((pre.map (fun p => (process_feed publishOk p.1 p.2).1)).flatten
            ++ [Event.publish e1.id, Event.publish e2.id]
            ++ (post.map (fun p => (process_feed publishOk p.1 p.2).1)).flatten,
           false) := by
  have hpf : process_feed publishOk feed_record entries
      = ([Event.publish e1.id, Event.publish e2.id], false) := by
    simp [process_feed, hdelta, publish_loop, h1, h2]
  refine ⟨hpf, ?_⟩
  simp only [execute, List.map_append, List.map_cons, List.flatten_append,
    List.flatten_cons, List.all_append, List.all_cons, hpf]
  simp [List.map_map, Function.comp_def, List.append_assoc]

/-- Witness for C2 (amended), at the concrete two-feed scenario. -/
theorem c2_publish_failure_is_isolated_witness :
    process_feed pubFailE2 feedRecA entriesA
      = ([Event.publish "e1", Event.publish "e2"], false) :=
  (c2_publish_failure_is_isolated pubFailE2 feedRecA entriesA entryE1 entryE2
    [entryE3] [] [(feedRecB, [entryF1])] (by decide) (by decide) (by decide)).1

/-- C9 (corrected), counterexample to the claim as stated: a feed whose
stored cursor equals the newest fetched entry's id has an empty delta, yet
`process_feed` still issues a cursor-store write recording the SAME id as
the stored cursor — an equal, not strictly newer, position. -/
theorem c9_counterexample :
    feedRecC.last_posted_entry_id = some "e1"
    ∧ process_feed allPublishOk feedRecC entriesC
        = ([Event.cursorWrite "https://blog.example/rss" "e1"], true) := by
  exact ⟨rfl, by decide⟩

/-- C9 (amended): for a feed whose cursor is already set, every
cursor-store write performed by `process_feed` targets that feed's url and
records either exactly the stored cursor id (when no entry was published)
or the id of the newest fetched entry, whose position (index 0) is strictly
before the first fetched entry matching the stored cursor (`0 < findIdx`,
with `findIdx` the list length when no entry matches) — never an older
position. -/
theorem c9_cursor_write_not_below_stored (publishOk : String → Bool)
    (feed_record : FeedRecord) (entries : List FeedEntry) (cursor : String)
    (hcur : feed_record.last_posted_entry_id = some cursor)
    (u w : String)
    (hmem : Event.cursorWrite u w ∈ (process_feed publishOk feed_record entries).1) :
    u = feed_record.url
    ∧ (w = cursor
       ∨ (0 < entries.findIdx (fun e => e.id = cursor)
          ∧ entries.head?.map FeedEntry.id = some w)) := by
  rcases hloop : publish_loop publishOk
      (compute_target_entries feed_record.last_posted_entry_id entries)
      feed_record.last_posted_entry_id with ⟨evs, l, ok⟩
  have hpub := publish_loop_events_publish publishOk
    (compute_target_entries feed_record.last_posted_entry_id entries)
    feed_record.last_posted_entry_id
  rw [hloop] at hpub
  simp only [process_feed, hloop] at hmem
  cases ok with
  | false =>
    simp only [if_neg (by simp : ¬(false = true))] at hmem
    obtain ⟨i, hi⟩ := hpub _ hmem
    exact absurd hi (by simp)
  | true =>
    cases hl : l with
    | none =>
      rw [hl] at hmem
      simp only [if_true] at hmem
      obtain ⟨i, hi⟩ := hpub _ hmem
      exact absurd hi (by simp)
    | some id =>
      rw [hl] at hmem
      simp only [if_true, List.mem_append, List.mem_singleton] at hmem
      rcases hmem with hin | heq
      · obtain ⟨i, hi⟩ := hpub _ hin
        exact absurd hi (by simp)
      · have hu : u = feed_record.url := by
          injection heq with h1 h2
        have hw : w = id := by
          injection heq with h1 h2
        refine ⟨hu, ?_⟩
        have hlast := publish_loop_ok_last publishOk
          (compute_target_entries feed_record.last_posted_entry_id entries)
          feed_record.last_posted_entry_id evs l hloop
        rw [hl, hcur, compute_target_entries, collect_target_entries_some,
          List.getLast?_reverse] at hlast
        cases entries with
        | nil =>
          simp at hlast
          subst hw
          exact Or.inl (by simp [hlast])
        | cons e0 rest =>
          by_cases h0 : e0.id = cursor
          · rw [List.takeWhile_cons, if_neg (by simp [h0])] at hlast
            simp at hlast
            subst hw
            exact Or.inl (by simp [hlast])
          · rw [List.takeWhile_cons, if_pos (by simp [h0])] at hlast
            simp at hlast
            subst hw
            refine Or.inr ⟨?_, ?_⟩
            · simp [List.findIdx_cons, h0]
            · simp [hlast]

/-- Witness for C9 (amended): the write of the all-successful three-entry
scenario records the newest entry's id, strictly ahead of the stored
cursor's position. -/
theorem c9_cursor_write_not_below_stored_witness :
    "https://blog.example/rss" = feedRecA.url
    ∧ ("e3" = "e0"
       ∨ (0 < entriesA.findIdx (fun e => e.id = "e0")
          ∧ entriesA.head?.map FeedEntry.id = some "e3")) :=
  c9_cursor_write_not_below_stored allPublishOk feedRecA entriesA "e0" rfl
    "https://blog.example/rss" "e3" (by decide)

/-- C5 (corrected), counterexample to the claim as stated: when the first
response is 401 but the `refresh_session` call itself fails, the `?` on
bsky.rs line 154 propagates the refresh error and the original request is
NOT re-issued — the trace holds a single execution, not the claimed exactly
one re-issue. -/
theorem c5_counterexample :
    (execute_request_with_refresh_session 401 false 200).1
        = [NetCall.exec, NetCall.refresh]
    ∧ (execute_request_with_refresh_session 401 false 200).1.countP
        (fun c => c = NetCall.exec) = 1
    ∧ ¬((execute_request_with_refresh_session 401 false 200).1.countP
        (fun c => c = NetCall.exec) = 2)
    ∧ (execute_request_with_refresh_session 401 false 200).2 = Except.error () := by
  exact ⟨by decide, by decide, by decide, rfl⟩

/-- C5 (amended): for every request of the publish client — first status,
refresh outcome and retry status arbitrary — a first 401 triggers exactly
one refresh call; when that refresh succeeds, the identical request is
executed exactly once more (trace `exec, refresh, exec`) and an error
status (400-599, in particular a second 401) on that retry is surfaced as a
failure with no further refresh or retry; when the refresh fails, the
failure is surfaced without re-issuing the request; and a first response
other than 401 is never followed by a refresh. -/
theorem c5_single_refresh_retry_contract (first : Nat) (refreshOk : Bool)
    (second : Nat) :
    (execute_request_with_refresh_session first refreshOk second).1.countP
        (fun c => c = NetCall.refresh) = (if first = 401 then 1 else 0)
    ∧ (execute_request_with_refresh_session first refreshOk second).1.countP
        (fun c => c = NetCall.exec)
        = (if first = 401 then (if refreshOk then 2 else 1) else 1)
    ∧ (first = 401 → refreshOk = true →
        execute_request_with_refresh_session first refreshOk second
          = ([NetCall.exec, NetCall.refresh, NetCall.exec],
             if isErrorStatus second then Except.error () else Except.ok second))
    ∧ (first = 401 → refreshOk = true → isErrorStatus second = true →
        (execute_request_with_refresh_session first refreshOk second).2
          = Except.error ())
    ∧ (first ≠ 401 →
        (execute_request_with_refresh_session first refreshOk second).1
          = [NetCall.exec]) := by
  by_cases h : first = 401
  · cases refreshOk with
    | true =>
      refine ⟨?_, ?_, fun _ _ => ?_, fun _ _ hs => ?_, fun hne => absurd h hne⟩
      · simp [execute_request_with_refresh_session, h]
      · simp [execute_request_with_refresh_session, h]
      · simp [execute_request_with_refresh_session, h]
      · simp [execute_request_with_refresh_session, h, hs]
    | false =>
      refine ⟨?_, ?_, fun _ hfalse => absurd hfalse (by simp),
        fun _ hfalse => absurd hfalse (by simp), fun hne => absurd h hne⟩
      · simp [execute_request_with_refresh_session, h]
      · simp [execute_request_with_refresh_session, h]
  · refine ⟨?_, ?_, fun h401 => absurd h401 h, fun h401 => absurd h401 h,
      fun _ => ?_⟩
    · simp [execute_request_with_refresh_session, h]
    · simp [execute_request_with_refresh_session, h]
    · simp [execute_request_with_refresh_session, h]

/-- Witness for C5 (amended), at a first 401, a successful refresh, and a
second 401 on the retried request. -/
theorem c5_single_refresh_retry_contract_witness :
    (execute_request_with_refresh_session 401 true 401).1.countP
        (fun c => c = NetCall.refresh) = 1
    ∧ (execute_request_with_refresh_session 401 true 401).2 = Except.error () := by
  have h := c5_single_refresh_retry_contract 401 true 401
  exact ⟨by simpa using h.1, h.2.2.2.1 rfl rfl (by decide)⟩

/-- C6 (corrected), counterexample to the claim as stated: an uploaded
asset of size 10 ≤ 1,000,000 supplied together with ABSENT page metadata
yields a record with no embed and hence no attached thumbnail, refuting the
claimed "attached if and only if s ≤ 1,000,000". -/
theorem c6_counterexample :
    smallBlobResponse.blob.size ≤ 1000000
    ∧ recordThumb (format_create_record_request_from_feed_entry "did:plc:x"
        "2024-01-01T00:00:00.000000Z" (some "Blog") entryE1 none
        (some smallBlobResponse)) = none := by
  exact ⟨by decide, by decide⟩

/-- C6 (amended): when page metadata IS present, the thumbnail is attached
iff the uploaded size is at most 1,000,000 bytes; when the size exceeds the
bound the record is still created, with its text and an embed carrying the
title and description but a `none` thumbnail — the post is never dropped
because of the size bound. -/
theorem c6_thumbnail_size_bound (did now : String) (feed_title : Option String)
    (feed_entry : FeedEntry) (ogp : OGPInfo) (resp : UploadBlobResponse) :
    recordThumb (format_create_record_request_from_feed_entry did now
        feed_title feed_entry (some ogp) (some resp))
      = (if resp.blob.size ≤ 1000000 then some resp.blob else none)
    ∧ (1000000 < resp.blob.size →
        (format_create_record_request_from_feed_entry did now feed_title
            feed_entry (some ogp) (some resp)).record.embed
          = some { type := "app.bsky.embed.external",
                   ext := { uri := feed_entry.url,
                            title := match ogp.title with
                              | some ogp_title => ogp_title
                              | none => feed_entry.title.getD ""
                            description := ogp.description.getD ""
                            thumb := none } })
    ∧ (format_create_record_request_from_feed_entry did now feed_title
        feed_entry (some ogp) (some resp)).record.text
      = (format_create_record_request_from_feed_entry did now feed_title
          feed_entry none none).record.text := by
  refine ⟨?_, fun hbig => ?_, ?_⟩
  · by_cases hle : resp.blob.size ≤ 1000000
    · rw [if_pos hle]
      simp [recordThumb, format_create_record_request_from_feed_entry,
        Nat.not_lt_of_le hle]
    · rw [if_neg hle]
      simp [recordThumb, format_create_record_request_from_feed_entry,
        Nat.lt_of_not_le hle]
  · simp only [format_create_record_request_from_feed_entry,
      if_pos hbig]
    cases ho : ogp.title <;> cases ht : feed_entry.title <;> simp [ho, ht]
  · rfl

/-- Witness for C6 (amended), at an over-sized uploaded asset. -/
theorem c6_thumbnail_size_bound_witness :
    recordThumb (format_create_record_request_from_feed_entry "did:plc:x"
        "2024-01-01T00:00:00.000000Z" (some "Blog") entryE1
        (some ⟨some "T", none, some "D"⟩) (some bigBlobResponse))
      = (if bigBlobResponse.blob.size ≤ 1000000 then some bigBlobResponse.blob
         else none) :=
  (c6_thumbnail_size_bound "did:plc:x" "2024-01-01T00:00:00.000000Z"
    (some "Blog") entryE1 ⟨some "T", none, some "D"⟩ bigBlobResponse).1

/-- The amended C7 text equation, stated in the (corrected) claim's words:
the record text is the entry's title joined with the feed's title as
"entry | feed" when both are present, the entry's title alone when the feed
has no title, and the empty string when the entry has no title. -/
def compose_text_spec (feed_title : Option String) (entry : FeedEntry) : String :=
  match entry.title with
  | some entry_title =>
    match feed_title with
    | some ft => entry_title ++ " | " ++ ft
    | none => entry_title
  | none => ""

/-- The claim's embed-title fallback, stated in the claim's words: the
metadata title when present, else the entry's title, else the empty
string. -/
def embed_title_spec (ogp : OGPInfo) (entry : FeedEntry) : String :=
  match ogp.title with
  | some t => t
  | none => entry.title.getD ""

/-- C7 (corrected), counterexample to the claim as stated: for an entry
with title "E1" in a feed titled "Blog", the record's text is
"E1 | Blog" — the entry's title suffixed with the feed's title — not the
entry's title alone. -/
theorem c7_counterexample :
    entryE1.title = some "E1"
    ∧ (format_create_record_request_from_feed_entry "did:plc:x"
        "2024-01-01T00:00:00.000000Z" (some "Blog") entryE1 none none).record.text
      = "E1 | Blog"
    ∧ "E1 | Blog" ≠ "E1" := by
  exact ⟨rfl, rfl, by decide⟩

/-- C7 (amended): record composition is pure formatting with these
equations — the text is the entry's title joined with the feed's title
("entry | feed") when both exist, the entry's title alone when the feed has
no title, and empty when the entry has no title; an embed is present iff
metadata was obtained; the embed's title is the metadata title, else the
entry's title, else empty; the embed's description is the metadata
description, else empty. -/
theorem c7_record_composition_equations (did now : String)
    (feed_title : Option String) (feed_entry : FeedEntry)
    (ogp_info : Option OGPInfo) (resp : Option UploadBlobResponse) :
    (format_create_record_request_from_feed_entry did now feed_title
        feed_entry ogp_info resp).record.text
      = compose_text_spec feed_title feed_entry
    ∧ ((format_create_record_request_from_feed_entry did now feed_title
        feed_entry ogp_info resp).record.embed).isSome = ogp_info.isSome
    ∧ ((format_create_record_request_from_feed_entry did now feed_title
        feed_entry ogp_info resp).record.embed).map (fun e => e.ext.title)
      = ogp_info.map (fun ogp => embed_title_spec ogp feed_entry)
    ∧ ((format_create_record_request_from_feed_entry did now feed_title
        feed_entry ogp_info resp).record.embed).map (fun e => e.ext.description)
      = ogp_info.map (fun ogp => ogp.description.getD "") := by
  cases ogp_info with
  | none =>
    cases feed_entry.title <;> cases feed_title <;>
      simp [format_create_record_request_from_feed_entry, compose_text_spec]
  | some ogp =>
    cases hot : ogp.title <;> cases het : feed_entry.title <;>
      cases feed_title <;>
        simp [format_create_record_request_from_feed_entry, compose_text_spec,
          embed_title_spec, hot, het]

/-- C8 (corrected), counterexample to the claim as stated: when the page
fetch fails, `extract_feed_entry_info` yields ABSENT metadata (`None`), not
a present-but-empty metadata value with all three fields `None` — the two
are distinguishable downstream, because only present metadata produces an
embed. -/
theorem c8_counterexample :
    extract_feed_entry_info (Except.error ()) failingImageFetch
        = Except.ok (none, none)
    ∧ ¬(extract_feed_entry_info (Except.error ()) failingImageFetch
        = Except.ok (some ⟨none, none, none⟩, none)) := by
  refine ⟨rfl, fun h => ?_⟩
  rw [show extract_feed_entry_info (Except.error ()) failingImageFetch
      = Except.ok (none, none) from rfl] at h
  simp at h

/-- C8 (amended): per-entry enrichment never returns an error to the
orchestrator — for every page-fetch outcome and image-fetch oracle the
result is `Ok`; a failed metadata fetch yields absent (`None`) metadata and
an absent image rather than a propagated error, and a failing image
download yields an absent image; so the entry's publishing proceeds
regardless. -/
theorem c8_enrichment_never_errors (pageResponse : Except Unit ParsedPage)
    (imageFetch : String → Except Unit OGImage) :
    (∃ v, extract_feed_entry_info pageResponse imageFetch = Except.ok v)
    ∧ (pageResponse = Except.error () →
        extract_feed_entry_info pageResponse imageFetch = Except.ok (none, none))
    ∧ ((∀ u, imageFetch u = Except.error ()) →
        ∃ m, extract_feed_entry_info pageResponse imageFetch = Except.ok (m, none)) := by
  refine ⟨⟨_, rfl⟩, fun h => by rw [h]; rfl, fun h => ?_⟩
  refine ⟨(get_ogp_from_url pageResponse).toOption, ?_⟩
  cases hp : pageResponse with
  | error e => rfl
  | ok page =>
    cases hi : page.og_image with
    | none => simp [extract_feed_entry_info, get_ogp_from_url, hi, Except.toOption]
    | some u =>
      simp [extract_feed_entry_info, get_ogp_from_url, hi, h u, Except.toOption]

/-- Witness for C8 (amended): at a failing page fetch, and at a successful
page fetch carrying an image url whose download fails. -/
theorem c8_enrichment_never_errors_witness :
    extract_feed_entry_info (Except.error ()) failingImageFetch
        = Except.ok (none, none)
    ∧ ∃ m, extract_feed_entry_info
        (Except.ok ⟨some "T", some "https://img.example/x.png", none⟩)
        failingImageFetch = Except.ok (m, none) :=
  ⟨(c8_enrichment_never_errors (Except.error ()) failingImageFetch).2.1 rfl,
   (c8_enrichment_never_errors
      (Except.ok ⟨some "T", some "https://img.example/x.png", none⟩)
      failingImageFetch).2.2 (fun _ => rfl)⟩

/-- C10: when page metadata is absent, the composed record has no embed and
hence no thumbnail, whatever uploaded asset (of whatever size) is supplied
— the asset is silently discarded, not attached and not reported. -/
theorem c10_asset_discarded_without_metadata (did now : String)
    (feed_title : Option String) (feed_entry : FeedEntry)
    (resp : Option UploadBlobResponse) :
    (format_create_record_request_from_feed_entry did now feed_title
        feed_entry none resp).record.embed = none
    ∧ recordThumb (format_create_record_request_from_feed_entry did now
        feed_title feed_entry none resp) = none := by
  exact ⟨rfl, rfl⟩

end BskyFeedBot
